import Mathlib

/-!
Verification development for the cyberiq vulnerability-intelligence service
(`src/api_enhanced.py`).  The Python code is shallowly embedded: dictionaries
become structures carrying the fields the pipeline reads, floating-point CVSS
and EPSS scores become rationals, network fetches are parameterised by an
`UpstreamResult` describing the upstream outcome, and Python's stable
`list.sort` becomes `List.mergeSort`.
-/

namespace CyberIQ

/-- Python substring containment `needle in haystack` on char lists. -/
def pyInL (w l : List Char) : Bool := decide (w <:+: l)

/-- Lowercased character data of a string, modelling Python's `s.lower()`
(ASCII case folding, which is all the code's vocabulary uses). -/
def lowerData (q : String) : List Char := q.data.map Char.toLower

/-- Python `needle in haystack.lower()` for a lowercase literal needle. -/
def pyInQ (w q : String) : Bool := pyInL w.data (lowerData q)

/-- Value of a `cvss_score` / `epss_score` dict entry: a number, or the
literal string `'N/A'` that the enrichment lookup substitutes on a miss. -/
inductive JScore where
  | num (q : ℚ)
  | na
deriving DecidableEq

/-- Canonical vulnerability record: the KEV-compatible dict shape produced by
the three adapters and consumed by the pipeline.  An absent dict key is
`none`; `priority_label` is only set by `enrich_vulnerability_data`. -/
structure Vuln where
  cveID : String := ""
  vendorProject : String := ""
  product : String := ""
  vulnerabilityName : String := ""
  dateAdded : String := ""
  shortDescription : String := ""
  requiredAction : String := ""
  dueDate : String := ""
  knownRansomwareCampaignUse : String := ""
  cvss_score : Option JScore := none
  cvss_severity : String := ""
  epss_score : Option JScore := none
  priority : String := ""
  source : String := ""
  priority_label : Option String := none
  zdi_id : String := ""
  advisory_url : String := ""
deriving DecidableEq

/-- Python truthiness test `'cvss_score' in vuln and vuln['cvss_score'] not in
[0, None, 'N/A']` (`api_enhanced.py:595`, `:603`): the field is present with a
non-placeholder numeric value. -/
def hasRealScore : Option JScore → Bool
  | some (.num q) => decide (q ≠ 0)
  | _ => false

/-- Numeric coercion `float(x) if x != 'N/A' else 0` with the surrounding
`try/except` that maps any failure to `0` (`api_enhanced.py:613-620`). -/
def coerceScore : Option JScore → ℚ
  | some (.num q) => q
  | _ => 0

/-- Priority banding inlined in `enrich_vulnerability_data`
(`api_enhanced.py:622-633`). -/
def enrich_priority_label (cvss epss : ℚ) : String :=
  if 9 ≤ cvss ∧ 10 ≤ epss then "🔴 URGENT"
  else if 9 ≤ cvss then "🔴 URGENT"
  else if 7 ≤ cvss ∧ 5 ≤ epss then "🟠 HIGH"
  else if 7 ≤ cvss then "🟠 HIGH"
  else if 4 ≤ cvss then "🟡 MEDIUM"
  else "🟢 LOW"

/-- Standalone `calculate_priority_label(cvss, epss)` (`api_enhanced.py:644-655`).
`some q` models a value passing `isinstance(x, (int, float))`. -/
def calculate_priority_label (cvss epss : Option ℚ) : String :=
  match cvss, epss with
  | some c, some e =>
    if 9 ≤ c ∧ 10 ≤ e then "🔴 URGENT"
    else if 7 ≤ c ∧ 5 ≤ e then "🟠 HIGH"
    else if 4 ≤ c then "🟡 MEDIUM"
    else "🟢 LOW"
  | _, _ => "⚪ UNKNOWN"

/-- Per-record body of the enrichment loop (`api_enhanced.py:590-637`): keep a
non-placeholder source score, otherwise substitute the lookup result (default
`'N/A'`), then attach the computed priority label. -/
def enrichOne (cvss_scores epss_scores : List (String × ℚ)) (v : Vuln) : Vuln :=
  let cvss : Option JScore :=
    if hasRealScore v.cvss_score then v.cvss_score
    else match cvss_scores.lookup v.cveID with
      | some s => some (.num s)
      | none => some .na
  let epss : Option JScore :=
    if hasRealScore v.epss_score then v.epss_score
    else match epss_scores.lookup v.cveID with
      | some s => some (.num s)
      | none => some .na
  { v with
    cvss_score := cvss
    epss_score := epss
    priority_label := some (enrich_priority_label (coerceScore cvss) (coerceScore epss)) }

/-- Sort key `x.get('cvss_score', 0) if isinstance(x.get('cvss_score'), (int, float)) else 0`
(`api_enhanced.py:640`). -/
def cvssSortKey (v : Vuln) : ℚ :=
  match v.cvss_score with
  | some (.num q) => q
  | _ => 0

/-- Stable-descending comparator for `enriched.sort(key=..., reverse=True)`. -/
def cvssDescLe (a b : Vuln) : Bool := decide (cvssSortKey b ≤ cvssSortKey a)

/-- `enrich_vulnerability_data(vulnerabilities, cvss_scores, epss_scores)`
(`api_enhanced.py:586-642`): enrich every record, then re-sort the batch by
CVSS score, highest first (Python's sort is stable). -/
def enrich_vulnerability_data (vulnerabilities : List Vuln)
    (cvss_scores epss_scores : List (String × ℚ)) : List Vuln :=
  (vulnerabilities.map (enrichOne cvss_scores epss_scores)).mergeSort cvssDescLe

/-- Source merge in the query endpoint (`api_enhanced.py:970`) and in the CSV
export (`api_enhanced.py:1335`): plain list concatenation ZDI + NVD + KEV. -/
def combine_sources (zdi nvd kev : List Vuln) : List Vuln := zdi ++ nvd ++ kev

/-- `smart_keyword_search(vulnerabilities, keywords)` (`api_enhanced.py:113-133`):
keep records whose name + description contains any keyword, case-insensitive;
an empty keyword list keeps everything. -/
def smart_keyword_search (vulnerabilities : List Vuln) (keywords : List String) : List Vuln :=
  if keywords.isEmpty then vulnerabilities
  else vulnerabilities.filter fun v =>
    keywords.any fun k =>
      pyInL (lowerData k) (lowerData (v.vulnerabilityName ++ " " ++ v.shortDescription))

/-! Regex machinery for `optimize_query` (`api_enhanced.py:770-856`).  The four
`re.search` patterns are hand-compiled: a matcher is tried at every position
left to right (the position's preceding character decides `\b`), greedy
`\s+` / `\d+` runs are maximal `takeWhile` runs, and alternations are tried in
the pattern's order. -/

/-- Python regex `\w` (ASCII fragment). -/
def isWordChar (c : Char) : Bool := c.isAlphanum || c == '_'

/-- Python regex `\s` (ASCII fragment). -/
def isReSpace (c : Char) : Bool :=
  c == ' ' || c == '\t' || c == '\n' || c == '\r' || c == Char.ofNat 11 || c == Char.ofNat 12

/-- Word boundary `\b` before a word character, given the preceding character. -/
def boundaryOk : Option Char → Bool
  | none => true
  | some c => !isWordChar c

/-- Word boundary `\b` after a word character, given the remaining input. -/
def wordEndOk : List Char → Bool
  | [] => true
  | c :: _ => !isWordChar c

/-- Numeric value of a digit run, as `int(group)` reads it. -/
def natOfDigits (ds : List Char) : Nat := ds.foldl (fun n c => 10 * n + (c.toNat - 48)) 0

/-- Greedy `\d+`: the maximal leading digit run, required nonempty. -/
def digits1 (l : List Char) : Option (Nat × List Char) :=
  let ds := l.takeWhile Char.isDigit
  if ds.isEmpty then none else some (natOfDigits ds, l.drop ds.length)

/-- Greedy `\s+`: the maximal leading whitespace run, required nonempty. -/
def spaces1 (l : List Char) : Option (List Char) :=
  let s := l.takeWhile isReSpace
  if s.isEmpty then none else some (l.drop s.length)

/-- Match a literal and return the rest of the input. -/
def stripLit (w l : List Char) : Option (List Char) :=
  if w.isPrefixOf l then some (l.drop w.length) else none

/-- One alternative of pattern `\b(top|first|last|show|latest)\s+(\d+)\b`. -/
def matchWordNum (w : String) (l : List Char) : Option Nat :=
  match stripLit w.data l with
  | none => none
  | some r1 =>
    match spaces1 r1 with
    | none => none
    | some r2 =>
      match digits1 r2 with
      | none => none
      | some (n, r3) => if wordEndOk r3 then some n else none

/-- Pattern `\b(top|first|last|show|latest)\s+(\d+)\b` (`api_enhanced.py:810`). -/
def matchP1 (prev : Option Char) (l : List Char) : Option Nat :=
  if boundaryOk prev then
    ["top", "first", "last", "show", "latest"].findSome? fun w => matchWordNum w l
  else none

/-- One noun alternative of pattern 2, with its trailing `\b`. -/
def nounTail (w : String) (l : List Char) : Bool :=
  match stripLit w.data l with
  | none => false
  | some r => wordEndOk r

/-- Pattern `\b(\d+)\s+(kevs|vulnerabilities|vulns|cves|items)\b`
(`api_enhanced.py:811`). -/
def matchP2 (prev : Option Char) (l : List Char) : Option Nat :=
  if boundaryOk prev then
    match digits1 l with
    | none => none
    | some (n, r1) =>
      match spaces1 r1 with
      | none => none
      | some r2 =>
        if ["kevs", "vulnerabilities", "vulns", "cves", "items"].any (fun w => nounTail w r2)
        then some n else none
  else none

/-- Pattern `\bshow\s+me\s+(\d+)\b` (`api_enhanced.py:812`). -/
def matchP3 (prev : Option Char) (l : List Char) : Option Nat :=
  if boundaryOk prev then
    match stripLit "show".data l with
    | none => none
    | some r1 =>
      match spaces1 r1 with
      | none => none
      | some r2 =>
        match stripLit "me".data r2 with
        | none => none
        | some r3 =>
          match spaces1 r3 with
          | none => none
          | some r4 =>
            match digits1 r4 with
            | none => none
            | some (n, r5) => if wordEndOk r5 then some n else none
  else none

/-- Pattern `\b(\d+)\s+of\b` (`api_enhanced.py:813`). -/
def matchP4 (prev : Option Char) (l : List Char) : Option Nat :=
  if boundaryOk prev then
    match digits1 l with
    | none => none
    | some (n, r1) =>
      match spaces1 r1 with
      | none => none
      | some r2 =>
        match stripLit "of".data r2 with
        | none => none
        | some r3 => if wordEndOk r3 then some n else none
  else none

/-- Leftmost-match scan of `re.search`, threading the previous character for
word boundaries. -/
def searchFrom (m : Option Char → List Char → Option α) : Option Char → List Char → Option α
  | prev, [] => m prev []
  | prev, c :: cs =>
    match m prev (c :: cs) with
    | some n => some n
    | none => searchFrom m (some c) cs

/-- `re.search(pattern, ql)` over the whole query. -/
def reSearch (m : Option Char → List Char → Option α) (l : List Char) : Option α :=
  searchFrom m none l

/-- The four limit patterns in the order the code tries them. -/
def limitPatterns : List (Option Char → List Char → Option Nat) :=
  [matchP1, matchP2, matchP3, matchP4]

/-- Pattern loop of `api_enhanced.py:816-829`: each matching pattern stores its
captured number; the loop stops early only when the stored value is truthy
(Python `if limit: break`, so a captured `0` does not stop it). -/
def tryPatternsAux : List (Option Char → List Char → Option Nat) → Option Nat → List Char → Option Nat
  | [], lim, _ => lim
  | p :: ps, lim, ql =>
    match reSearch p ql with
    | some n => if n ≠ 0 then some n else tryPatternsAux ps (some n) ql
    | none => tryPatternsAux ps lim ql

/-- The "user wants everything" vocabulary checked by substring containment
(`api_enhanced.py:801`). -/
def allWords : List String := [" all ", "all ", " all", "every", "entire", "complete"]

/-- Limit detection of `optimize_query` (`api_enhanced.py:797-833`): an
all-vocabulary substring hit forces no limit; otherwise the number patterns
run. -/
def detectLimit (ql : List Char) : Option Nat :=
  if allWords.any (fun w => pyInL w.data ql) then none
  else tryPatternsAux limitPatterns none ql

/-- Pattern `\b(20\d{2})\b` for year extraction (`api_enhanced.py:844`). -/
def matchYear (prev : Option Char) (l : List Char) : Option (List Char) :=
  if boundaryOk prev then
    match l with
    | '2' :: '0' :: c :: d :: rest =>
      if c.isDigit && d.isDigit && wordEndOk rest then some ['2', '0', c, d] else none
    | _ => none
  else none

/-- Year filter detection (`api_enhanced.py:842-847`). -/
def detectYear (ql : List Char) : Option String :=
  (reSearch matchYear ql).map fun cs => String.mk cs

/-- Date-sort vocabulary (`api_enhanced.py:837`). -/
def sortDateWords : List String :=
  ["order by date", "sort by date", "sorted by date", "by date", "chronological"]

def kevTriggerWords : List String := ["kev", "exploited", "cisa", "ransomware", "actively"]

def nvdTriggerWords : List String := ["nvd", "recent", "latest", "new", "published"]

def zdiTriggerWords : List String :=
  ["zdi", "zero-day", "zero day", "zeroday", "0-day", "0day", "earliest"]

def zeroDayWords : List String := ["zero-day", "zero day", "zeroday", "0-day", "0day"]

/-- Resolved intent of the deterministic resolver `optimize_query`. -/
structure OptimizedQuery where
  needs_kev : Bool
  needs_nvd : Bool
  needs_zdi : Bool
  limit : Option Nat
  sort_by_date : Bool
  year_filter : Option String
deriving DecidableEq

/-- Source selection of `optimize_query` (`api_enhanced.py:774-795`): keyword
detection per source, then the KEV-only override, then the ZDI override that
keeps NVD, then the include-all default. -/
def sourceFlags (ql : List Char) : Bool × Bool × Bool :=
  let needs_kev := kevTriggerWords.any fun w => pyInL w.data ql
  let needs_nvd := nvdTriggerWords.any fun w => pyInL w.data ql
  let needs_zdi := zdiTriggerWords.any fun w => pyInL w.data ql
  if pyInL "kev".data ql then (true, false, false)
  else if pyInL "zdi".data ql || zeroDayWords.any (fun w => pyInL w.data ql) then
    (false, true, true)
  else if !needs_kev && !needs_nvd && !needs_zdi then (true, true, true)
  else (needs_kev, needs_nvd, needs_zdi)

/-- `optimize_query(query_text)` (`api_enhanced.py:770-856`), the deterministic
keyword-matching intent resolver. -/
def optimize_query (query_text : String) : OptimizedQuery :=
  let ql := lowerData query_text
  let f := sourceFlags ql
  { needs_kev := f.1
    needs_nvd := f.2.1
    needs_zdi := f.2.2
    limit := detectLimit ql
    sort_by_date := sortDateWords.any fun w => pyInL w.data ql
    year_filter := detectYear ql }

/-- Structured intent shape returned by `parse_query_with_claude`
(`api_enhanced.py:39-111`). -/
structure ParsedIntent where
  data_sources : List String
  search_keywords : List String
  year : Option String
  vendor : Option String
  limit : Option Nat
  sort_by : Option String
deriving DecidableEq

/-- Outcome of the LLM call in `parse_query_with_claude`: a response whose
text parsed to an intent object, a response whose text failed to parse
(malformed JSON), or a failed API call. -/
inductive LlmResult where
  | response (parsed : Option ParsedIntent)
  | callFailed

/-- The fixed intent built by the `except` handler of `parse_query_with_claude`
(`api_enhanced.py:103-111`). -/
def claude_fallback_intent : ParsedIntent :=
  { data_sources := ["KEV", "NVD", "ZDI"]
    search_keywords := []
    year := none
    vendor := none
    limit := none
    sort_by := none }

/-- `parse_query_with_claude(query_text)` (`api_enhanced.py:39-111`),
parameterised by the LLM outcome: a successfully parsed response is returned
as is; a malformed response or failed call lands in the `except` handler,
which returns the fixed fallback intent. -/
def parse_query_with_claude (llm : LlmResult) (query_text : String) : ParsedIntent :=
  match llm, query_text with
  | .response (some p), _ => p
  | .response none, _ => claude_fallback_intent
  | .callFailed, _ => claude_fallback_intent

/-- The intent the deterministic resolver's output denotes, in the
`ParsedIntent` shape, for comparing the two resolver strategies (the claim's
"the resolved intent equals the output of the deterministic resolver"). -/
def intentOfOptimized (o : OptimizedQuery) : ParsedIntent :=
  { data_sources :=
      (if o.needs_kev then ["KEV"] else []) ++
      (if o.needs_nvd then ["NVD"] else []) ++
      (if o.needs_zdi then ["ZDI"] else [])
    search_keywords := []
    year := o.year_filter
    vendor := none
    limit := o.limit
    sort_by := if o.sort_by_date then some "date" else none }

/-! Source adapters (`api_enhanced.py:237-493`).  Network calls are
parameterised by an `UpstreamResult`: `failure` stands for any raised
exception (timeout, `raise_for_status` on a non-2xx reply, or a payload that
fails to parse), `success` carries the decoded payload. -/

/-- Outcome of one upstream HTTP/RSS request. -/
inductive UpstreamResult (α : Type) where
  | success (payload : α)
  | failure (err : String)

/-- Python slice `s[:n]`. -/
def pyTakeStr (n : Nat) (s : String) : String := String.mk (s.data.take n)

/-- Python `s.strip()` (ASCII whitespace). -/
def pyStrip (s : List Char) : List Char :=
  (((s.dropWhile isReSpace).reverse).dropWhile isReSpace).reverse

/-- Python `s.split()`: split on whitespace runs, dropping empty pieces. -/
def pySplitWs (s : List Char) : List (List Char) :=
  (s.splitOnP isReSpace).filter fun w => !w.isEmpty

/-- The decoded CISA KEV catalog JSON (`data.get('vulnerabilities', [])` is
the only field the pipeline reads). -/
structure KevData where
  vulnerabilities : List Vuln := []

/-- `fetch_kev_data()` (`api_enhanced.py:237-262`): the success branch returns
the decoded catalog; the `except` branch re-raises as
`HTTPException(500, "Failed to fetch KEV data: ...")`, modelled as
`Except.error` with the same detail string. -/
def fetch_kev_data (upstream : UpstreamResult KevData) : Except String KevData :=
  match upstream with
  | .success d => .ok d
  | .failure e => .error ("Failed to fetch KEV data: " ++ e)

/-- One `cvssData` object as read by the NVD adapter, with the `.get`
defaults of `api_enhanced.py:306-317`. -/
structure CvssData where
  baseScore : ℚ := 0
  baseSeverity : String := "UNKNOWN"
deriving DecidableEq

/-- The `metrics` dict of one NVD item; a missing or empty metric list is
`[]`, which the code treats identically. -/
structure NvdMetrics where
  cvssMetricV31 : List CvssData := []
  cvssMetricV30 : List CvssData := []
  cvssMetricV2 : List CvssData := []
deriving DecidableEq

/-- One entry of an NVD item's `descriptions` array. -/
structure NvdDesc where
  lang : String := ""
  value : String := ""
deriving DecidableEq

/-- One decoded item of the NVD 2.0 feed, restricted to the fields the
adapter reads. -/
structure NvdCveItem where
  id : String := ""
  metrics : NvdMetrics := {}
  descriptions : List NvdDesc := []
  published : String := ""
deriving DecidableEq

/-- CVSS extraction of the NVD adapter (`api_enhanced.py:300-317`): v3.1,
then v3.0, then v2.0 with a derived severity, else score 0. -/
def nvdScoreSeverity (m : NvdMetrics) : ℚ × String :=
  match m.cvssMetricV31 with
  | c :: _ => (c.baseScore, c.baseSeverity)
  | [] =>
    match m.cvssMetricV30 with
    | c :: _ => (c.baseScore, c.baseSeverity)
    | [] =>
      match m.cvssMetricV2 with
      | c :: _ => (c.baseScore, if 7 ≤ c.baseScore then "HIGH" else "MEDIUM")
      | [] => (0, "UNKNOWN")

/-- First English description (`api_enhanced.py:324-329`). -/
def nvdDescription (ds : List NvdDesc) : String :=
  match ds.find? (fun d => d.lang == "en") with
  | some d => d.value
  | none => ""

/-- Per-item body of the NVD fetch loop (`api_enhanced.py:296-358`): `none`
models the `continue` that discards entries below CVSS 7.0. -/
def nvdEntryOfItem (it : NvdCveItem) : Option Vuln :=
  let sv := nvdScoreSeverity it.metrics
  if sv.1 < 7 then none
  else
    let description := nvdDescription it.descriptions
    let vuln_name0 :=
      if description ≠ "" then pyTakeStr 100 description else it.id ++ " - " ++ sv.2
    let vuln_name :=
      if pyInL ".".data vuln_name0.data then
        String.mk ((vuln_name0.data.splitOn '.').headI) ++ "."
      else vuln_name0
    some { cveID := it.id
           vendorProject := "Various"
           product := "Various"
           vulnerabilityName := vuln_name
           dateAdded := pyTakeStr 10 it.published
           shortDescription :=
             if description ≠ "" then pyTakeStr 200 description
             else "No description available"
           requiredAction := "Review and patch as appropriate"
           dueDate := ""
           knownRansomwareCampaignUse := "Unknown"
           cvss_score := some (.num sv.1)
           cvss_severity := sv.2
           epss_score := some (.num 0)
           priority := if 9 ≤ sv.1 then "🔴 URGENT" else "🟠 HIGH"
           source := "NVD Recent" }

/-- `fetch_recent_nvd_cves(days)` (`api_enhanced.py:265-367`): parse and keep
the high-severity items on success, return `[]` from the `except` branch on
any failure.  The `days` window only shapes the request URL and cache key. -/
def fetch_recent_nvd_cves (upstream : UpstreamResult (List NvdCveItem)) : List Vuln :=
  match upstream with
  | .success items => items.filterMap nvdEntryOfItem
  | .failure _ => []

/-- Calendar date, for the ZDI publication-date window. -/
structure Date where
  y : Nat
  m : Nat
  d : Nat
deriving DecidableEq

/-- Chronological strict order on dates. -/
def Date.ltB (a b : Date) : Bool :=
  a.y < b.y || (a.y == b.y && (a.m < b.m || (a.m == b.m && a.d < b.d)))

/-- Two-digit zero padding of `strftime`. -/
def pad2 (n : Nat) : String := if n < 10 then "0" ++ toString n else toString n

/-- `strftime('%Y-%m-%d')` (years in this feed are four digits). -/
def dateToIso (d : Date) : String := toString d.y ++ "-" ++ pad2 d.m ++ "-" ++ pad2 d.d

/-- One RSS `<item>` as read by the ZDI adapter: the extracted text fields
plus the parsed publication date, where `none` models a `pubDate` string
rejected by both `strptime` formats (the item is then skipped). -/
structure ZdiItem where
  title : String := ""
  link : String := ""
  description : String := ""
  pubDate : Option Date := none
deriving DecidableEq

/-- Regex `ZDI-\d{2}-\d+` (`api_enhanced.py:429`), returning the matched
text. -/
def matchZdiId (_prev : Option Char) (l : List Char) : Option (List Char) :=
  match stripLit "ZDI-".data l with
  | none => none
  | some r =>
    match r with
    | a :: b :: '-' :: r2 =>
      let ds := r2.takeWhile Char.isDigit
      if a.isDigit && b.isDigit && !ds.isEmpty then
        some ("ZDI-".data ++ a :: b :: '-' :: ds)
      else none
    | _ => none

/-- Regex `CVE-\d{4}-\d+` (`api_enhanced.py:433`), returning the matched
text. -/
def matchCveId (_prev : Option Char) (l : List Char) : Option (List Char) :=
  match stripLit "CVE-".data l with
  | none => none
  | some r =>
    match r with
    | a :: b :: c :: d :: '-' :: r2 =>
      let ds := r2.takeWhile Char.isDigit
      if a.isDigit && b.isDigit && c.isDigit && d.isDigit && !ds.isEmpty then
        some ("CVE-".data ++ a :: b :: c :: d :: '-' :: ds)
      else none
    | _ => none

/-- One occurrence of `\(ZDI-\d{2}-\d+\)` at the head of the input, returning
the input after the match (for `re.sub`). -/
def matchParenZdi (l : List Char) : Option (List Char) :=
  match l with
  | '(' :: rest =>
    match stripLit "ZDI-".data rest with
    | none => none
    | some r =>
      match r with
      | a :: b :: '-' :: r2 =>
        let ds := r2.takeWhile Char.isDigit
        if a.isDigit && b.isDigit && !ds.isEmpty then
          match r2.drop ds.length with
          | ')' :: tail => some tail
          | _ => none
        else none
      | _ => none
  | _ => none

/-- Python regex sub `re.sub(r'\(ZDI-\d{2}-\d+\)', '', title)`
(`api_enhanced.py:458`): delete every non-overlapping occurrence, scanning
left to right.  A successful head match consumes at least the opening
parenthesis, proved inline for termination. -/
def reSubZdiParen (l : List Char) : List Char :=
  match l with
  | [] => []
  | c :: cs =>
    match hm : matchParenZdi (c :: cs) with
    | some rest =>
      have : rest.length < (c :: cs).length := by
        unfold matchParenZdi at hm
        split at hm
        · rename_i cs' hceq
          injection hceq with hc hcs
          subst hcs
          split at hm
          · exact absurd hm (by simp)
          · rename_i r hr
            split at hm
            · rename_i a b r2
              have hrcs : (a :: b :: '-' :: r2).length ≤ cs.length := by
                unfold stripLit at hr
                split at hr
                · injection hr with hr'
                  rw [← hr', List.length_drop]
                  exact Nat.sub_le _ _
                · exact absurd hr (by simp)
              simp only [] at hm
              split at hm
              · split at hm
                · rename_i tail htail
                  cases hm
                  have h1 :
                      (r2.drop (r2.takeWhile Char.isDigit).length).length ≤ r2.length := by
                    rw [List.length_drop]; exact Nat.sub_le _ _
                  rw [htail] at h1
                  simp only [List.length_cons] at h1 hrcs ⊢
                  omega
                · exact absurd hm (by simp)
              · exact absurd hm (by simp)
            · exact absurd hm (by simp)
        · exact absurd hm (by simp)
      reSubZdiParen rest
    | none => c :: reSubZdiParen cs
termination_by l.length

/-- ZDI severity-estimation vocabulary, critical tier (`api_enhanced.py:444`). -/
def zdiRceWords : List String :=
  ["remote code execution", "rce", "arbitrary code execution", "code execution",
   "command injection"]

/-- ZDI severity-estimation vocabulary, 8.5 tier (`api_enhanced.py:447`). -/
def zdiPrivWords : List String :=
  ["privilege escalation", "authentication bypass", "sql injection", "xxe", "deserialize"]

/-- ZDI severity-estimation vocabulary, 7.5 tier (`api_enhanced.py:450`). -/
def zdiXssWords : List String :=
  ["xss", "cross-site", "csrf", "directory traversal", "path traversal"]

/-- Per-item body of the ZDI RSS loop (`api_enhanced.py:403-484`): `none`
models every `continue` (unparsable date, an item older than the window, or
the `IndexError` the vendor extraction raises on a whitespace-only first
title part, absorbed by the per-item `except`). -/
def zdiProcessItem (cutoff : Date) (it : ZdiItem) : Option Vuln :=
  match it.pubDate with
  | none => none
  | some pd =>
    if Date.ltB pd cutoff then none
    else
      let hay := if it.title = "" then it.link else it.title
      let zdi_id :=
        match reSearch matchZdiId hay.data with
        | some cs => String.mk cs
        | none => "ZDI-UNKNOWN"
      let cve_id :=
        match reSearch matchCveId (it.title ++ " " ++ it.description).data with
        | some cs => String.mk cs
        | none => zdi_id
      let vendorOpt : Option String :=
        let p0 := (it.title.splitOn " - ").headI
        if p0 = "" then some "Unknown"
        else
          match pySplitWs p0.data with
          | [] => none
          | w :: _ => some (String.mk w)
      match vendorOpt with
      | none => none
      | some vendor =>
        let tl := lowerData (it.title ++ " " ++ it.description)
        let sv : ℚ × String :=
          if zdiRceWords.any (fun w => pyInL w.data tl) then (9, "CRITICAL")
          else if zdiPrivWords.any (fun w => pyInL w.data tl) then (17 / 2, "HIGH")
          else if zdiXssWords.any (fun w => pyInL w.data tl) then (15 / 2, "HIGH")
          else (7, "HIGH")
        let clean_title := String.mk (pyStrip (reSubZdiParen it.title.data))
        some { cveID := cve_id
               vendorProject := vendor
               product := "Various"
               vulnerabilityName := pyTakeStr 100 clean_title
               dateAdded := dateToIso pd
               shortDescription :=
                 if it.description ≠ "" then pyTakeStr 200 it.description else clean_title
               requiredAction := "Review ZDI advisory and apply vendor patches"
               dueDate := ""
               knownRansomwareCampaignUse := "Unknown"
               cvss_score := some (.num sv.1)
               cvss_severity := sv.2
               epss_score := some (.num 0)
               priority := if 9 ≤ sv.1 then "🔴 URGENT" else "🟠 HIGH"
               source := "ZDI"
               zdi_id := zdi_id
               advisory_url := it.link }

/-- `fetch_zdi_advisories(days)` (`api_enhanced.py:369-493`): parse the RSS
items inside the window on success, return `[]` from the outer `except`
branch on any upstream failure.  `cutoff` is `now - timedelta(days=days)`. -/
def fetch_zdi_advisories (cutoff : Date) (upstream : UpstreamResult (List ZdiItem)) :
    List Vuln :=
  match upstream with
  | .success items => items.filterMap (zdiProcessItem cutoff)
  | .failure _ => []

/-- Search text of `filter_vulnerabilities` (`api_enhanced.py:762`). -/
def searchTextOf (v : Vuln) : String :=
  v.vendorProject ++ " " ++ v.product ++ " " ++ v.vulnerabilityName ++ " " ++
    v.shortDescription ++ " " ++ v.cveID

/-- `filter_vulnerabilities(kev_data, vendor, date_filter, query_text)`
(`api_enhanced.py:744-768`): substring filters, each skipped when its
criterion is the empty string. -/
def filter_vulnerabilities (kev_data : KevData) (vendor date_filter query_text : String) :
    List Vuln :=
  kev_data.vulnerabilities.filter fun v =>
    (vendor == "" || pyInL (lowerData vendor) (lowerData v.vendorProject)) &&
    (date_filter == "" || pyInL date_filter.data v.dateAdded.data) &&
    (query_text == "" || pyInL (lowerData query_text) (lowerData (searchTextOf v)))

/-- Vendor vocabulary of `extract_vendor_from_cve` (`api_enhanced.py:670-682`),
in priority order. -/
def commonVendors : List String :=
  ["Microsoft", "Adobe", "Apple", "Google", "Oracle", "Cisco", "VMware",
   "SAP", "IBM", "Dell", "HP", "Juniper", "Fortinet", "Palo Alto",
   "Citrix", "Linux", "Red Hat", "Ubuntu", "Debian", "SUSE",
   "WordPress", "Drupal", "Joomla", "PHP", "Apache", "Nginx",
   "MySQL", "PostgreSQL", "MongoDB", "Jenkins", "Docker", "Kubernetes",
   "AWS", "Azure", "Firefox", "Chrome", "Safari", "Android", "iOS",
   "Windows", "Exchange", "SharePoint", "Office", "Outlook",
   "Acrobat", "Reader", "Photoshop", "Flash", "Java", "OpenSSL",
   "Zoom", "Teams", "Slack", "Salesforce", "ServiceNow",
   "SonicWall", "Sophos", "Trend Micro", "McAfee", "Symantec",
   "F5", "Barracuda", "Check Point", "Ivanti", "Splunk"]

/-- `extract_vendor_from_cve(vuln)` (`api_enhanced.py:657-688`): trust a
non-placeholder `vendorProject`, otherwise scan name, description and CVE id
for a known vendor. -/
def extract_vendor_from_cve (v : Vuln) : String :=
  let vendor := String.mk (pyStrip v.vendorProject.data)
  if vendor ≠ "" &&
      !(["various", "unknown", "n/a", ""].contains (String.mk (lowerData vendor))) then
    vendor
  else
    let text := lowerData (v.vulnerabilityName ++ " " ++ v.shortDescription ++ " " ++ v.cveID)
    match commonVendors.find? (fun c => pyInL (lowerData c) text) with
    | some c => c
    | none => "Unknown"

/-- `classify_vulnerability_type(vuln)` (`api_enhanced.py:690-716`). -/
def classify_vulnerability_type (v : Vuln) : List String :=
  let text := lowerData (v.vulnerabilityName ++ " " ++ v.shortDescription)
  let hit (ws : List String) : Bool := ws.any fun w => pyInL w.data text
  let types :=
    (if hit ["remote code execution", "rce", "arbitrary code execution", "code execution"]
     then ["RCE"] else []) ++
    (if hit ["sql injection", "sqli"] then ["SQL Injection"] else []) ++
    (if hit ["cross-site scripting", "xss"] then ["XSS"] else []) ++
    (if hit ["privilege escalation", "escalation of privilege"]
     then ["Privilege Escalation"] else []) ++
    (if hit ["authentication bypass", "auth bypass"] then ["Authentication Bypass"] else []) ++
    (if hit ["buffer overflow", "heap overflow", "stack overflow"]
     then ["Buffer Overflow"] else []) ++
    (if hit ["directory traversal", "path traversal"] then ["Directory Traversal"] else []) ++
    (if hit ["command injection"] then ["Command Injection"] else []) ++
    (if hit ["denial of service", "dos"] then ["DoS"] else [])
  if types.isEmpty then ["Other"] else types

/-- Vendor vocabulary of `extract_filters_from_query` (`api_enhanced.py:726`). -/
def efqVendors : List String :=
  ["microsoft", "adobe", "apple", "google", "oracle", "cisco", "vmware",
   "linux", "windows", "php", "wordpress", "apache", "nginx", "zoom"]

/-- `extract_filters_from_query(query)` (`api_enhanced.py:718-742`): best-effort
vendor and vulnerability-type filters for the CSV export. -/
def extract_filters_from_query (query : String) : Option String × Option String :=
  let ql := lowerData query
  let vendor := efqVendors.find? fun v => pyInL v.data ql
  let vtype : Option String :=
    if ["rce", "remote code", "code execution"].any (fun w => pyInL w.data ql) then some "rce"
    else if ["sql injection", "sqli"].any (fun w => pyInL w.data ql) then some "sql"
    else if ["xss", "cross-site"].any (fun w => pyInL w.data ql) then some "xss"
    else none
  (vendor, vtype)

/-! Query endpoint pipeline segments (`api_enhanced.py:858-1188`) and the CSV
export pipeline (`api_enhanced.py:1303-1452`).  The claims quantify over the
already-fetched per-source lists, so the segments below start at the merge. -/

/-- Python's string `<`: strict lexicographic comparison by code point. -/
def strLtB : List Char → List Char → Bool
  | [], [] => false
  | [], _ :: _ => true
  | _ :: _, [] => false
  | a :: as, b :: bs => if a < b then true else if b < a then false else strLtB as bs

/-- Stable-descending comparator on `dateAdded`: Python's
`sort(key=..., reverse=True)` keeps `a` before `b` exactly when `a`'s key is
not smaller than `b`'s. -/
def dateDescLe (a b : Vuln) : Bool := !strLtB a.dateAdded.data b.dateAdded.data

/-- Stable date sort, newest first: `sort(key=lambda x: x.get('dateAdded', ''),
reverse=True)` (`api_enhanced.py:1005`; ISO date strings compare
lexicographically in both Python and Lean). -/
def sortByDateDesc (l : List Vuln) : List Vuln :=
  l.mergeSort dateDescLe

/-- Sorting step of the query endpoint (`api_enhanced.py:1002-1010`): date
descending on request, else CVSS descending for `cvss` sorts and
top/highest/worst/critical queries, else merge order. -/
def applySortBy (sort_by : Option String) (query_text : String) (l : List Vuln) : List Vuln :=
  if sort_by == some "date" then sortByDateDesc l
  else if sort_by == some "cvss" ||
      ["top", "highest", "worst", "critical"].any (fun w => pyInQ w query_text) then
    l.mergeSort cvssDescLe
  else l

/-- Result-limit truncation `filtered_data[:limit]` (`api_enhanced.py:1013-1015`). -/
def applyLimit (limit : Option Nat) (l : List Vuln) : List Vuln :=
  match limit with
  | some n => l.take n
  | none => l

/-- Post-merge filter stage of the query endpoint (`api_enhanced.py:974-991`):
keyword search when Claude extracted keywords, then the vendor substring
filter, then the year prefix filter. -/
def query_apply_filters (search_keywords : List String)
    (vendor_filter year_filter : Option String) (l : List Vuln) : List Vuln :=
  let l1 := if !search_keywords.isEmpty then smart_keyword_search l search_keywords else l
  let l2 :=
    match vendor_filter with
    | some vf => l1.filter fun v => pyInL (lowerData vf) (lowerData (extract_vendor_from_cve v))
    | none => l1
  match year_filter with
  | some y => l2.filter fun v => y.data.isPrefixOf v.dateAdded.data
  | none => l2

/-- CVE ids handed to enrichment, taken from the post-limit list
(`api_enhanced.py:1023`). -/
def query_enrich_cves (limit : Option Nat) (filtered_data : List Vuln) : List String :=
  (applyLimit limit filtered_data).map fun v => v.cveID

/-- Limit-then-enrich segment of the query endpoint (`api_enhanced.py:1012-1032`). -/
def query_limit_enrich (limit : Option Nat) (filtered_data : List Vuln)
    (cvss_scores epss_scores : List (String × ℚ)) : List Vuln :=
  enrich_vulnerability_data (applyLimit limit filtered_data) cvss_scores epss_scores

/-- `total_count = len(enriched_data)` reported to the caller
(`api_enhanced.py:1044`, `:1179`). -/
def query_total_count (limit : Option Nat) (filtered_data : List Vuln)
    (cvss_scores epss_scores : List (String × ℚ)) : Nat :=
  (query_limit_enrich limit filtered_data cvss_scores epss_scores).length

/-- Ransomware flag test of the CSV export (`api_enhanced.py:1359`). -/
def isRansomwareFlagged (v : Vuln) : Bool :=
  ["known", "yes", "true", "y"].contains (String.mk (lowerData v.knownRansomwareCampaignUse))

/-- KEV subset of the CSV export (`api_enhanced.py:1316-1320`): vendor/date
filtered and source-tagged. -/
def export_kev_subset (kev_data : KevData) (vendor date_filter : String) : List Vuln :=
  (filter_vulnerabilities kev_data vendor date_filter "").map fun v =>
    { v with source := "CISA KEV" }

/-- Recency vocabulary of the CSV export (`api_enhanced.py:1373`). -/
def csvRecentWords : List String := ["recent", "new", "latest", "emerging"]

/-- Merge and query-derived vendor/type filtering of `export_csv`
(`api_enhanced.py:1330-1353`), up to the special handling. -/
def export_csv_prefilter (query : String) (zdi nvd : List Vuln) (kev_data : KevData)
    (vendor date_filter : String) : List Vuln :=
  let kevF := export_kev_subset kev_data vendor date_filter
  let fd0 := combine_sources zdi nvd kevF
  let filters := extract_filters_from_query query
  let fd1 :=
    match filters.1 with
    | some vf => fd0.filter fun v => pyInL vf.data (lowerData (extract_vendor_from_cve v))
    | none => fd0
  match filters.2 with
  | some tf =>
    fd1.filter fun v => (classify_vulnerability_type v).any fun vt =>
      pyInL tf.data (lowerData vt)
  | none => fd1

/-- Filter portion of `export_csv` (`api_enhanced.py:1313-1376`): merge the
three sources, apply the query-derived vendor/type filters, then the special
handling — the ransomware narrowing with its below-10 relaxation to the full
KEV subset, else the zero-day and recency re-selections. -/
def export_csv_filtered (query : String) (zdi nvd : List Vuln) (kev_data : KevData)
    (vendor date_filter : String) : List Vuln :=
  let kevF := export_kev_subset kev_data vendor date_filter
  let fd2 := export_csv_prefilter query zdi nvd kev_data vendor date_filter
  if pyInQ "ransomware" query then
    let ransom := fd2.filter fun v => isRansomwareFlagged v
    if ransom.length < 10 then kevF else ransom
  else if zeroDayWords.any (fun w => pyInQ w query) then
    sortByDateDesc (zdi ++ nvd)
  else if csvRecentWords.any (fun w => pyInQ w query) then
    sortByDateDesc (zdi ++ nvd ++ kevF)
  else fd2

/-- Words of the lowercased query text, split on single spaces; the claim-side
reading of "token". -/
def wordsOf (q : String) : List (List Char) := (lowerData q).splitOn ' '

/-- The query contains an explicit `all` / `every` / `entire` token. -/
def hasAllToken (q : String) : Prop :=
  "all".data ∈ wordsOf q ∨ "every".data ∈ wordsOf q ∨ "entire".data ∈ wordsOf q

instance (q : String) : Decidable (hasAllToken q) := by
  unfold hasAllToken
  infer_instance

/-- Exploited-catalog record of the C1 merge scenario: CVE-2024-0001 with the
severity score unset. -/
def kevScenarioRec : Vuln :=
  { cveID := "CVE-2024-0001", source := "CISA KEV" }

/-- Advisory-feed record of the C1 merge scenario: the same CVE with
severity 9.0. -/
def zdiScenarioRec : Vuln :=
  { cveID := "CVE-2024-0001", cvss_score := some (.num 9), source := "ZDI" }

/-- Three-record merged set for the C4 counterexample. -/
def c4Records : List Vuln :=
  [{ cveID := "CVE-2025-1001" }, { cveID := "CVE-2025-1002" }, { cveID := "CVE-2025-1003" }]

/-- First record of the C9 scenario: newer date, lower CVSS. -/
def c9r1 : Vuln := { cveID := "CVE-2025-0010", dateAdded := "2024-01-02",
                     cvss_score := some (.num 5) }

/-- Second record of the C9 scenario: older date, higher CVSS. -/
def c9r2 : Vuln := { cveID := "CVE-2025-0011", dateAdded := "2024-01-01",
                     cvss_score := some (.num 9) }

/-- A KEV record flagged `knownRansomwareCampaignUse = "Known"` whose text
does not contain the word "ransomware". -/
def c8FlaggedRec : Vuln :=
  { cveID := "CVE-2021-26855",
    vulnerabilityName := "Microsoft Exchange SSRF",
    shortDescription := "Crafted request bypass.",
    knownRansomwareCampaignUse := "Known", source := "CISA KEV" }

/-- Two-record KEV catalog (one record flagged) for the C8 witness. -/
def c8KevData : KevData :=
  { vulnerabilities :=
      [{ cveID := "CVE-2020-0001", knownRansomwareCampaignUse := "Known" },
       { cveID := "CVE-2020-0002", knownRansomwareCampaignUse := "Unknown" }] }

/-- One flagged KEV record for the C8 witness catalogs. -/
def c8FlaggedShort : Vuln :=
  { cveID := "CVE-2020-0001", knownRansomwareCampaignUse := "Known" }

/-- Eleven-record KEV catalog (ten records flagged) for the C8 witness. -/
def c8KevBig : KevData :=
  { vulnerabilities :=
      List.replicate 10 c8FlaggedShort ++
        [{ cveID := "CVE-2020-0002", knownRansomwareCampaignUse := "Unknown" }] }

/-! Helper lemmas shared by the claim theorems. -/

theorem pyInL_eq_true_iff {w l : List Char} : pyInL w l = true ↔ w <:+: l := by
  simp [pyInL]

theorem lowerData_optimize_limit (q : String) :
    (optimize_query q).limit = detectLimit (lowerData q) := rfl

theorem intercalate_pair (sep a b : List Char) (l : List (List Char)) :
    sep.intercalate (a :: b :: l) = a ++ sep ++ sep.intercalate (b :: l) := by
  simp [List.intercalate, List.intersperse, List.append_assoc]

theorem intercalate_one (sep a : List Char) : sep.intercalate [a] = a := by
  simp [List.intercalate, List.intersperse]

theorem mem_intercalate_cases (sep : Char) :
    ∀ (parts : List (List Char)) (w : List Char), w ∈ parts →
      [sep].intercalate parts = w ∨ (w ++ [sep]) <:+: [sep].intercalate parts ∨
        (sep :: w) <:+: [sep].intercalate parts
  | [], w, hw => absurd hw (List.not_mem_nil w)
  | [a], w, hw => by
    left
    simp only [List.mem_singleton] at hw
    rw [hw, intercalate_one]
  | a :: b :: rest, w, hw => by
    rw [intercalate_pair]
    rcases List.mem_cons.mp hw with rfl | hw'
    · right; left
      exact ⟨[], [sep].intercalate (b :: rest), by simp [List.append_assoc]⟩
    · rcases mem_intercalate_cases sep (b :: rest) w hw' with heq | hinf | hinf
      · right; right
        rw [heq]
        exact ⟨a, [], by simp [List.append_assoc]⟩
      · right; left
        obtain ⟨s, t, hst⟩ := hinf
        exact ⟨a ++ [sep] ++ s, t, by rw [← hst]; simp [List.append_assoc]⟩
      · right; right
        obtain ⟨s, t, hst⟩ := hinf
        exact ⟨a ++ [sep] ++ s, t, by rw [← hst]; simp [List.append_assoc]⟩

theorem mem_splitOn_adjacent {w l : List Char} (hw : w ∈ l.splitOn ' ') :
    l = w ∨ (w ++ [' ']) <:+: l ∨ (' ' :: w) <:+: l := by
  have hi : [' '].intercalate (l.splitOn ' ') = l := List.intercalate_splitOn l ' '
  rcases mem_intercalate_cases ' ' (l.splitOn ' ') w hw with heq | hinf | hinf
  · left; rw [← hi, heq]
  · right; left; rw [← hi]; exact hinf
  · right; right; rw [← hi]; exact hinf

theorem mem_splitOn_contained {w l : List Char} (hw : w ∈ l.splitOn ' ') : w <:+: l := by
  rcases mem_splitOn_adjacent hw with heq | hinf | hinf
  · exact heq ▸ List.infix_rfl
  · exact ((w.prefix_append [' ']).isInfix).trans hinf
  · exact ((List.suffix_cons ' ' w).isInfix).trans hinf

theorem digits1_none {l : List Char} (h : ∀ c ∈ l, c.isDigit = false) : digits1 l = none := by
  unfold digits1
  simp only []
  cases l with
  | nil => simp
  | cons c cs =>
    rw [List.takeWhile_cons]
    simp [h c (List.mem_cons_self c cs)]

theorem no_digit_drop {l : List Char} (n : Nat) (h : ∀ c ∈ l, c.isDigit = false) :
    ∀ c ∈ l.drop n, c.isDigit = false :=
  fun c hc => h c (List.drop_subset n l hc)

theorem no_digit_stripLit {w l r : List Char} (hs : stripLit w l = some r)
    (h : ∀ c ∈ l, c.isDigit = false) : ∀ c ∈ r, c.isDigit = false := by
  unfold stripLit at hs
  split at hs
  · cases hs; exact no_digit_drop _ h
  · cases hs

theorem no_digit_spaces1 {l r : List Char} (hs : spaces1 l = some r)
    (h : ∀ c ∈ l, c.isDigit = false) : ∀ c ∈ r, c.isDigit = false := by
  unfold spaces1 at hs
  simp only [] at hs
  split at hs
  · cases hs
  · cases hs; exact no_digit_drop _ h

theorem matchWordNum_no_digit {l : List Char} (w : String)
    (h : ∀ c ∈ l, c.isDigit = false) : matchWordNum w l = none := by
  unfold matchWordNum
  cases hs : stripLit w.data l with
  | none => rfl
  | some r1 =>
    cases hsp : spaces1 r1 with
    | none => simp [hsp]
    | some r2 =>
      simp [hsp, digits1_none (no_digit_spaces1 hsp (no_digit_stripLit hs h))]

theorem matchP1_no_digit {l : List Char} (prev : Option Char)
    (h : ∀ c ∈ l, c.isDigit = false) : matchP1 prev l = none := by
  unfold matchP1
  split
  · simp [List.findSome?_cons, matchWordNum_no_digit _ h]
  · rfl

theorem matchP2_no_digit {l : List Char} (prev : Option Char)
    (h : ∀ c ∈ l, c.isDigit = false) : matchP2 prev l = none := by
  unfold matchP2
  split
  · rw [digits1_none h]
  · rfl

theorem matchP3_no_digit {l : List Char} (prev : Option Char)
    (h : ∀ c ∈ l, c.isDigit = false) : matchP3 prev l = none := by
  unfold matchP3
  split
  · cases hs : stripLit "show".data l with
    | none => rfl
    | some r1 =>
      cases hsp : spaces1 r1 with
      | none => simp [hsp]
      | some r2 =>
        cases hs2 : stripLit "me".data r2 with
        | none => simp [hsp, hs2]
        | some r3 =>
          cases hsp2 : spaces1 r3 with
          | none => simp [hsp, hs2, hsp2]
          | some r4 =>
            simp [hsp, hs2, hsp2, digits1_none (no_digit_spaces1 hsp2 (no_digit_stripLit hs2
              (no_digit_spaces1 hsp (no_digit_stripLit hs h))))]
  · rfl

theorem matchP4_no_digit {l : List Char} (prev : Option Char)
    (h : ∀ c ∈ l, c.isDigit = false) : matchP4 prev l = none := by
  unfold matchP4
  split
  · rw [digits1_none h]
  · rfl

theorem searchFrom_no_digit {m : Option Char → List Char → Option Nat}
    (hm : ∀ (prev : Option Char) (l : List Char),
      (∀ c ∈ l, c.isDigit = false) → m prev l = none) :
    ∀ (prev : Option Char) (l : List Char), (∀ c ∈ l, c.isDigit = false) →
      searchFrom m prev l = none
  | prev, [], h => by simpa [searchFrom] using hm prev [] h
  | prev, c :: cs, h => by
    rw [searchFrom, hm prev (c :: cs) h]
    exact searchFrom_no_digit hm (some c) cs fun x hx => h x (List.mem_cons_of_mem c hx)

theorem tryPatterns_no_digit {ql : List Char} (h : ∀ c ∈ ql, c.isDigit = false) :
    tryPatternsAux limitPatterns none ql = none := by
  have h1 : reSearch matchP1 ql = none :=
    searchFrom_no_digit (fun p l hl => matchP1_no_digit p hl) none ql h
  have h2 : reSearch matchP2 ql = none :=
    searchFrom_no_digit (fun p l hl => matchP2_no_digit p hl) none ql h
  have h3 : reSearch matchP3 ql = none :=
    searchFrom_no_digit (fun p l hl => matchP3_no_digit p hl) none ql h
  have h4 : reSearch matchP4 ql = none :=
    searchFrom_no_digit (fun p l hl => matchP4_no_digit p hl) none ql h
  simp [limitPatterns, tryPatternsAux, reSearch] at h1 h2 h3 h4 ⊢
  rw [h1, h2, h3, h4]

theorem detectLimit_all_branch {ql : List Char} {w : String} (hw : w ∈ allWords)
    (h : w.data <:+: ql) : detectLimit ql = none := by
  unfold detectLimit
  have hc : allWords.any (fun u => pyInL u.data ql) = true :=
    List.any_eq_true.mpr ⟨w, hw, pyInL_eq_true_iff.mpr h⟩
  simp [hc]

/-- C7: an explicit `all` / `every` / `entire` token in the query text forces
`limit = None` even when a number also appears (the substring check of
`api_enhanced.py:801` fires on the token, bypassing number extraction), and a
query with neither such a token nor any digit also resolves to `limit = None`
(every number pattern needs `\d+`; lowercasing does not affect digits). -/
theorem c7_all_token_forces_no_limit (q : String) :
    (hasAllToken q → (optimize_query q).limit = none) ∧
    (¬ hasAllToken q → (∀ c ∈ lowerData q, c.isDigit = false) →
      (optimize_query q).limit = none) := by
  constructor
  · intro h
    rw [lowerData_optimize_limit]
    rcases h with h | h | h
    · rcases mem_splitOn_adjacent h with heq | hinf | hinf
      · rw [heq]; decide
      · have he : "all".data ++ [' '] = "all ".data := by decide
        exact detectLimit_all_branch (by decide) (he ▸ hinf)
      · have he : ' ' :: "all".data = " all".data := by decide
        exact detectLimit_all_branch (by decide) (he ▸ hinf)
    · exact detectLimit_all_branch (by decide) (mem_splitOn_contained h)
    · exact detectLimit_all_branch (by decide) (mem_splitOn_contained h)
  · intro _ hd
    rw [lowerData_optimize_limit]
    unfold detectLimit
    split
    · rfl
    · exact tryPatterns_no_digit hd

/-- Witness for C7: "show me all 50 kevs" carries an explicit `all` token and a
number and resolves to no limit; "list vulnerabilities" carries neither a
token nor a number and also resolves to no limit. -/
theorem c7_witness :
    (hasAllToken "show me all 50 kevs" ∧
      (optimize_query "show me all 50 kevs").limit = none) ∧
    (¬ hasAllToken "list vulnerabilities" ∧
      (optimize_query "list vulnerabilities").limit = none) :=
  ⟨⟨by decide, (c7_all_token_forces_no_limit "show me all 50 kevs").1 (by decide)⟩,
   ⟨by decide,
    (c7_all_token_forces_no_limit "list vulnerabilities").2 (by decide) (by decide)⟩⟩

/-- C10: any occurrence of the substrings `"all "` or `" all"` in the
lowercased query — also inside longer words such as "firewall" — makes the
resolver return `limit = None`, bypassing number extraction entirely. -/
theorem c10_substring_all_bypasses_numbers (q : String)
    (h : pyInL "all ".data (lowerData q) = true ∨ pyInL " all".data (lowerData q) = true) :
    (optimize_query q).limit = none := by
  rw [lowerData_optimize_limit]
  rcases h with h | h
  · exact detectLimit_all_branch (by decide) (pyInL_eq_true_iff.mp h)
  · exact detectLimit_all_branch (by decide) (pyInL_eq_true_iff.mp h)

/-- Witness for C10: "top 10 firewall vulnerabilities" hits the `"all "`
substring inside "firewall" and resolves to no limit instead of limit 10. -/
theorem c10_witness :
    pyInL "all ".data (lowerData "top 10 firewall vulnerabilities") = true ∧
      (optimize_query "top 10 firewall vulnerabilities").limit = none :=
  ⟨by decide, c10_substring_all_bypasses_numbers _ (Or.inl (by decide))⟩

theorem optimize_query_flags (q : String) :
    (optimize_query q).needs_kev = (sourceFlags (lowerData q)).1 ∧
    (optimize_query q).needs_nvd = (sourceFlags (lowerData q)).2.1 ∧
    (optimize_query q).needs_zdi = (sourceFlags (lowerData q)).2.2 :=
  ⟨rfl, rfl, rfl⟩

/-- Counterexample for C6: the query "zdi" names exactly one source (it
contains "zdi" and neither "kev" nor "nvd"), yet the resolver keeps NVD
enabled alongside ZDI (`api_enhanced.py:787-790` keeps NVD for zero-days), so
the resolved source set is not `{ZDI}` alone. -/
theorem c6_counterexample :
    pyInQ "zdi" "zdi" = true ∧ pyInQ "kev" "zdi" = false ∧ pyInQ "nvd" "zdi" = false ∧
      (optimize_query "zdi").needs_zdi = true ∧ (optimize_query "zdi").needs_nvd = true := by
  decide

/-- C6 as amended: a query containing "kev" resolves to KEV only; a query
containing "zdi" (or a zero-day token) but not "kev" resolves to
`{NVD, ZDI}`, NVD included; a query containing "nvd" and none of the KEV/ZDI
trigger vocabulary resolves to NVD only; a query containing none of the
trigger vocabulary resolves to all three sources. -/
theorem c6_source_selection (q : String) :
    (pyInQ "kev" q = true →
      (optimize_query q).needs_kev = true ∧ (optimize_query q).needs_nvd = false ∧
        (optimize_query q).needs_zdi = false) ∧
    (pyInQ "kev" q = false →
      (pyInQ "zdi" q = true ∨ (∃ w ∈ zeroDayWords, pyInQ w q = true)) →
      (optimize_query q).needs_kev = false ∧ (optimize_query q).needs_nvd = true ∧
        (optimize_query q).needs_zdi = true) ∧
    ((∀ w ∈ kevTriggerWords, pyInQ w q = false) →
      (∀ w ∈ zdiTriggerWords, pyInQ w q = false) →
      pyInQ "nvd" q = true →
      (optimize_query q).needs_kev = false ∧ (optimize_query q).needs_nvd = true ∧
        (optimize_query q).needs_zdi = false) ∧
    ((∀ w ∈ kevTriggerWords, pyInQ w q = false) →
      (∀ w ∈ nvdTriggerWords, pyInQ w q = false) →
      (∀ w ∈ zdiTriggerWords, pyInQ w q = false) →
      (optimize_query q).needs_kev = true ∧ (optimize_query q).needs_nvd = true ∧
        (optimize_query q).needs_zdi = true) := by
  obtain ⟨hk, hn, hz⟩ := optimize_query_flags q
  refine ⟨fun h1 => ?_, fun h1 h2 => ?_, fun h1 h2 h3 => ?_, fun h1 h2 h3 => ?_⟩
  · have h1' : pyInL "kev".data (lowerData q) = true := h1
    rw [hk, hn, hz]
    simp [sourceFlags, h1']
  · have h1' : pyInL "kev".data (lowerData q) = false := h1
    have hc : (pyInL "zdi".data (lowerData q) ||
        zeroDayWords.any fun w => pyInL w.data (lowerData q)) = true := by
      rcases h2 with h | ⟨w, hw, hwt⟩
      · have h' : pyInL "zdi".data (lowerData q) = true := h
        simp [h']
      · have hwt' : pyInL w.data (lowerData q) = true := hwt
        simp only [Bool.or_eq_true, List.any_eq_true]
        exact Or.inr ⟨w, hw, hwt'⟩
    rw [hk, hn, hz]
    simp [sourceFlags, h1', hc]
  · have hkf : pyInL "kev".data (lowerData q) = false := h1 "kev" (by decide)
    have hzf : pyInL "zdi".data (lowerData q) = false := h2 "zdi" (by decide)
    have hzdSub : ∀ w ∈ zeroDayWords, w ∈ zdiTriggerWords := by decide
    have hzd : (zeroDayWords.any fun w => pyInL w.data (lowerData q)) = false :=
      List.any_eq_false.mpr fun w hw => by
        have : pyInQ w q = false := h2 w (hzdSub w hw)
        simp [pyInQ] at this
        simp [this]
    have hkevAny : (kevTriggerWords.any fun w => pyInL w.data (lowerData q)) = false :=
      List.any_eq_false.mpr fun w hw => by
        have : pyInQ w q = false := h1 w hw
        simp [pyInQ] at this
        simp [this]
    have hzdiAny : (zdiTriggerWords.any fun w => pyInL w.data (lowerData q)) = false :=
      List.any_eq_false.mpr fun w hw => by
        have : pyInQ w q = false := h2 w hw
        simp [pyInQ] at this
        simp [this]
    have hnvdAny : (nvdTriggerWords.any fun w => pyInL w.data (lowerData q)) = true :=
      List.any_eq_true.mpr ⟨"nvd", by decide, h3⟩
    rw [hk, hn, hz]
    simp [sourceFlags, hkf, hzf, hzd, hkevAny, hzdiAny, hnvdAny]
  · have hkf : pyInL "kev".data (lowerData q) = false := h1 "kev" (by decide)
    have hzf : pyInL "zdi".data (lowerData q) = false := h3 "zdi" (by decide)
    have hzdSub : ∀ w ∈ zeroDayWords, w ∈ zdiTriggerWords := by decide
    have hzd : (zeroDayWords.any fun w => pyInL w.data (lowerData q)) = false :=
      List.any_eq_false.mpr fun w hw => by
        have : pyInQ w q = false := h3 w (hzdSub w hw)
        simp [pyInQ] at this
        simp [this]
    have hkevAny : (kevTriggerWords.any fun w => pyInL w.data (lowerData q)) = false :=
      List.any_eq_false.mpr fun w hw => by
        have : pyInQ w q = false := h1 w hw
        simp [pyInQ] at this
        simp [this]
    have hnvdAny : (nvdTriggerWords.any fun w => pyInL w.data (lowerData q)) = false :=
      List.any_eq_false.mpr fun w hw => by
        have : pyInQ w q = false := h2 w hw
        simp [pyInQ] at this
        simp [this]
    have hzdiAny : (zdiTriggerWords.any fun w => pyInL w.data (lowerData q)) = false :=
      List.any_eq_false.mpr fun w hw => by
        have : pyInQ w q = false := h3 w hw
        simp [pyInQ] at this
        simp [this]
    rw [hk, hn, hz]
    simp [sourceFlags, hkf, hzf, hzd, hkevAny, hnvdAny, hzdiAny]

/-- Witness for C6: one query per amended branch, resolved as stated. -/
theorem c6_witness :
    ((optimize_query "latest kevs").needs_kev = true ∧
      (optimize_query "latest kevs").needs_nvd = false ∧
      (optimize_query "latest kevs").needs_zdi = false) ∧
    ((optimize_query "zero day attacks").needs_kev = false ∧
      (optimize_query "zero day attacks").needs_nvd = true ∧
      (optimize_query "zero day attacks").needs_zdi = true) ∧
    ((optimize_query "nvd database").needs_kev = false ∧
      (optimize_query "nvd database").needs_nvd = true ∧
      (optimize_query "nvd database").needs_zdi = false) ∧
    ((optimize_query "vulnerabilities").needs_kev = true ∧
      (optimize_query "vulnerabilities").needs_nvd = true ∧
      (optimize_query "vulnerabilities").needs_zdi = true) :=
  ⟨(c6_source_selection "latest kevs").1 (by decide),
   (c6_source_selection "zero day attacks").2.1 (by decide)
     (Or.inr ⟨"zero day", by decide, by decide⟩),
   (c6_source_selection "nvd database").2.2.1 (by decide) (by decide) (by decide),
   (c6_source_selection "vulnerabilities").2.2.2 (by decide) (by decide) (by decide)⟩

/-- Counterexample for C5: when the LLM call fails on "top 10 kevs", the
resolved intent is the fixed fallback (all three sources, no limit), not the
deterministic keyword resolver's output (KEV only, limit 10). -/
theorem c5_counterexample :
    parse_query_with_claude .callFailed "top 10 kevs" ≠
        intentOfOptimized (optimize_query "top 10 kevs") ∧
      (parse_query_with_claude .callFailed "top 10 kevs").data_sources =
        ["KEV", "NVD", "ZDI"] ∧
      (parse_query_with_claude .callFailed "top 10 kevs").limit = none ∧
      (optimize_query "top 10 kevs").needs_nvd = false ∧
      (optimize_query "top 10 kevs").limit = some 10 := by
  decide

/-- C5 as amended: on a failed LLM call or a malformed LLM response, the
resolver silently returns the fixed default intent — all three sources, no
keywords, no filters, no limit, no sort — identical for every query, rather
than the deterministic keyword resolver's output; the exception is absorbed,
so no error reaches the user. -/
theorem c5_fallback_is_fixed_default (q q₂ : String) (p : LlmResult)
    (h : p = .callFailed ∨ p = .response none) :
    parse_query_with_claude p q = claude_fallback_intent ∧
    parse_query_with_claude p q = parse_query_with_claude p q₂ ∧
    (parse_query_with_claude p q).data_sources = ["KEV", "NVD", "ZDI"] ∧
    (parse_query_with_claude p q).search_keywords = [] ∧
    (parse_query_with_claude p q).limit = none := by
  rcases h with rfl | rfl <;> exact ⟨rfl, rfl, rfl, rfl, rfl⟩

/-- Witness for C5's amended statement at a concrete failed call. -/
theorem c5_witness :
    parse_query_with_claude .callFailed "show me ransomware" = claude_fallback_intent ∧
      (parse_query_with_claude .callFailed "show me ransomware").limit = none :=
  ⟨(c5_fallback_is_fixed_default "show me ransomware" "" .callFailed (Or.inl rfl)).1,
   (c5_fallback_is_fixed_default "show me ransomware" "" .callFailed (Or.inl rfl)).2.2.2.2⟩

/-- Counterexample for C3: on an upstream failure (timeout, non-2xx,
malformed payload) the KEV adapter does not return an empty list — it
re-raises as `HTTPException(500, ...)` (`api_enhanced.py:262`), modelled as
`Except.error`, propagating the failure to its caller. -/
theorem c3_counterexample :
    fetch_kev_data (.failure "timeout") =
      .error "Failed to fetch KEV data: timeout" := rfl

/-- C3 as amended: the NVD and ZDI adapters absorb every upstream failure and
return an empty list, but the KEV adapter propagates the failure as an
HTTP 500 error. -/
theorem c3_failure_behaviour (e : String) (cutoff : Date) :
    fetch_recent_nvd_cves (.failure e) = [] ∧
    fetch_zdi_advisories cutoff (.failure e) = [] ∧
    fetch_kev_data (.failure e) = .error ("Failed to fetch KEV data: " ++ e) :=
  ⟨rfl, rfl, rfl⟩


/-- Counterexample for C1: merging the spec's scenario inputs (AdvisoryFeed
and ExploitedCatalog both reporting CVE-2024-0001, VulnerabilityDatabase
empty) yields the id twice — the merge is plain concatenation with no
dedup, so `id` is not unique in the merged result set and no field-level
precedence merge happens. -/
theorem c1_counterexample :
    ((combine_sources [zdiScenarioRec] [] [kevScenarioRec]).filter
        (fun v => v.cveID == "CVE-2024-0001")).length = 2 ∧
      combine_sources [zdiScenarioRec] [] [kevScenarioRec] =
        [zdiScenarioRec, kevScenarioRec] := by
  decide

/-- C1 as amended: the aggregator concatenates the three source lists
(ZDI ++ NVD ++ KEV) with no deduplication and no field-level merge: the
number of records carrying an id is the sum over the sources, and every
merged record is one of the source records unchanged (each keeps its own
fields and provenance). -/
theorem c1_merge_is_concatenation (zdi nvd kev : List Vuln) (i : String) :
    ((combine_sources zdi nvd kev).filter (fun v => v.cveID == i)).length =
        (zdi.filter (fun v => v.cveID == i)).length +
        (nvd.filter (fun v => v.cveID == i)).length +
        (kev.filter (fun v => v.cveID == i)).length ∧
      (∀ v, v ∈ combine_sources zdi nvd kev ↔ v ∈ zdi ∨ v ∈ nvd ∨ v ∈ kev) := by
  constructor
  · simp [combine_sources, List.filter_append, Nat.add_assoc]
  · intro v
    simp [combine_sources, List.mem_append, or_assoc]


/-- Counterexample for C4: with `limit = 2` over `M = 3` filtered records, the
enrichment batch is the 2 post-limit records, but the reported `total_count`
is `len(enriched_data) = 2` — the post-limit count, not the pre-limit `M = 3`
the claim requires. -/
theorem c4_counterexample :
    c4Records.length = 3 ∧
      query_enrich_cves (some 2) c4Records = ["CVE-2025-1001", "CVE-2025-1002"] ∧
      query_total_count (some 2) c4Records [] [] = 2 ∧
      query_total_count (some 2) c4Records [] [] ≠ c4Records.length := by
  have ht : query_total_count (some 2) c4Records [] [] = 2 := by
    simp [query_total_count, query_limit_enrich, enrich_vulnerability_data,
      List.length_mergeSort, applyLimit, c4Records]
  refine ⟨by decide, by decide, ht, ?_⟩
  rw [ht]
  decide

/-- C4 as amended: with `limit = L ≤ M`, the CVE list handed to enrichment
has exactly `L` entries, the enriched output is a permutation of the `L`
post-limit records (each enriched), and the reported `total_count` equals
`L` — the post-limit, pre-pagination count (so for `M > L` it is `L`, not
`M`). -/
theorem c4_enrich_batch_and_total (fd : List Vuln) (L : Nat)
    (cm em : List (String × ℚ)) (h : L ≤ fd.length) :
    (query_enrich_cves (some L) fd).length = L ∧
    List.Perm (query_limit_enrich (some L) fd cm em)
      ((applyLimit (some L) fd).map (enrichOne cm em)) ∧
    query_total_count (some L) fd cm em = L := by
  have hlen : (applyLimit (some L) fd).length = L := by
    simp [applyLimit, List.length_take, Nat.min_eq_left h]
  refine ⟨?_, ?_, ?_⟩
  · simpa [query_enrich_cves] using hlen
  · simpa [query_limit_enrich, enrich_vulnerability_data] using
      List.mergeSort_perm ((applyLimit (some L) fd).map (enrichOne cm em)) cvssDescLe
  · simp [query_total_count, query_limit_enrich, enrich_vulnerability_data,
      List.length_mergeSort, hlen]

/-- Witness for C4's amended statement: the spec's scenario numbers, a batch
of 5 from 50 filtered records. -/
theorem c4_witness :
    (query_enrich_cves (some 5)
        (List.replicate 50 ({ cveID := "CVE-2025-0002" } : Vuln))).length = 5 ∧
      query_total_count (some 5)
        (List.replicate 50 ({ cveID := "CVE-2025-0002" } : Vuln)) [] [] = 5 :=
  ⟨(c4_enrich_batch_and_total
      (List.replicate 50 ({ cveID := "CVE-2025-0002" } : Vuln)) 5 [] [] (by decide)).1,
   (c4_enrich_batch_and_total
      (List.replicate 50 ({ cveID := "CVE-2025-0002" } : Vuln)) 5 [] [] (by decide)).2.2⟩

/-- Counterexample for C2: `calculate_priority_label(9.5, 0)` is MEDIUM, not
URGENT — the standalone function demands `epss >= 10` for URGENT and
`epss >= 5` for HIGH — and a record whose severity stays unset after
enrichment (lookup miss coerces `'N/A'` to 0) is labelled LOW, not UNKNOWN. -/
theorem c2_counterexample :
    calculate_priority_label (some (19 / 2 : ℚ)) (some 0) = "🟡 MEDIUM" ∧
      (enrich_vulnerability_data [{ cveID := "CVE-2025-0001" }] [] []).map
          (fun v => v.priority_label) = [some "🟢 LOW"] := by
  constructor
  · norm_num [calculate_priority_label]
  · simp only [enrich_vulnerability_data, List.map_cons, List.map_nil,
      List.mergeSort_singleton]
    norm_num [enrichOne, hasRealScore, coerceScore, enrich_priority_label]

/-- C2 as amended: the label attached by the enrichment pipeline is the pure
banding URGENT iff `S ≥ 9`, HIGH iff `7 ≤ S < 9`, MEDIUM iff `4 ≤ S < 7`,
LOW otherwise, applied to the coerced scores (an unset or `'N/A'` severity
coerces to 0 and lands in LOW — UNKNOWN is never produced on this path);
every enriched record stores exactly the label recomputable from its stored
`cvss_score`/`epss_score`; the standalone `calculate_priority_label` keeps
UNKNOWN for non-numeric input. -/
theorem c2_priority_banding :
    (∀ c e : ℚ,
      (9 ≤ c → enrich_priority_label c e = "🔴 URGENT") ∧
      (7 ≤ c → c < 9 → enrich_priority_label c e = "🟠 HIGH") ∧
      (4 ≤ c → c < 7 → enrich_priority_label c e = "🟡 MEDIUM") ∧
      (c < 4 → enrich_priority_label c e = "🟢 LOW")) ∧
    (∀ (vulns : List Vuln) (cm em : List (String × ℚ)) (v : Vuln),
      v ∈ enrich_vulnerability_data vulns cm em →
      v.priority_label =
        some (enrich_priority_label (coerceScore v.cvss_score) (coerceScore v.epss_score))) ∧
    (∀ e : Option ℚ, calculate_priority_label none e = "⚪ UNKNOWN") := by
  refine ⟨fun c e => ⟨?_, ?_, ?_, ?_⟩, ?_, fun e => rfl⟩
  · intro h
    unfold enrich_priority_label
    by_cases he : 10 ≤ e
    · rw [if_pos ⟨h, he⟩]
    · rw [if_neg (fun hc => he hc.2), if_pos h]
  · intro h1 h2
    have h9 : ¬ 9 ≤ c := by linarith
    unfold enrich_priority_label
    rw [if_neg (fun hc => h9 hc.1), if_neg h9]
    by_cases he : 5 ≤ e
    · rw [if_pos ⟨h1, he⟩]
    · rw [if_neg (fun hc => he hc.2), if_pos h1]
  · intro h1 h2
    have h9 : ¬ 9 ≤ c := by linarith
    have h7 : ¬ 7 ≤ c := by linarith
    unfold enrich_priority_label
    rw [if_neg (fun hc => h9 hc.1), if_neg h9, if_neg (fun hc => h7 hc.1), if_neg h7,
      if_pos h1]
  · intro h
    have h9 : ¬ 9 ≤ c := by linarith
    have h7 : ¬ 7 ≤ c := by linarith
    have h4 : ¬ 4 ≤ c := by linarith
    unfold enrich_priority_label
    rw [if_neg (fun hc => h9 hc.1), if_neg h9, if_neg (fun hc => h7 hc.1), if_neg h7,
      if_neg h4]
  · intro vulns cm em v hv
    simp only [enrich_vulnerability_data, List.mem_mergeSort] at hv
    obtain ⟨u, _, rfl⟩ := List.mem_map.mp hv
    simp [enrichOne]

/-- Witness for C2's amended banding at concrete scores, and for the
recomputability of a stored label from its record's stored scores. -/
theorem c2_witness :
    (enrich_priority_label (19 / 2 : ℚ) 0 = "🔴 URGENT" ∧
      enrich_priority_label (15 / 2 : ℚ) 0 = "🟠 HIGH" ∧
      enrich_priority_label 5 0 = "🟡 MEDIUM" ∧
      enrich_priority_label 0 99 = "🟢 LOW") ∧
    (enrichOne [] [] c9r1).priority_label =
      some (enrich_priority_label (coerceScore (enrichOne [] [] c9r1).cvss_score)
        (coerceScore (enrichOne [] [] c9r1).epss_score)) :=
  ⟨⟨(c2_priority_banding.1 (19 / 2) 0).1 (by norm_num),
    (c2_priority_banding.1 (15 / 2) 0).2.1 (by norm_num) (by norm_num),
    (c2_priority_banding.1 5 0).2.2.1 (by norm_num) (by norm_num),
    (c2_priority_banding.1 0 99).2.2.2 (by norm_num)⟩,
   c2_priority_banding.2.1 [c9r1] [] [] (enrichOne [] [] c9r1)
     (by simp [enrich_vulnerability_data, List.mergeSort_singleton])⟩

/-- `mergeSort` on a two-element list compares the pair once. -/
theorem mergeSort_pair {α : Type} (le : α → α → Bool) (a b : α) :
    [a, b].mergeSort le = if le a b then [a, b] else [b, a] := by
  rw [List.mergeSort]
  simp [List.splitInTwo, List.merge]

theorem strLtB_asymm : ∀ {x y : List Char}, strLtB x y = true → strLtB y x = false
  | [], [] => by simp [strLtB]
  | [], _ :: _ => fun _ => by simp [strLtB]
  | a :: as, [] => by simp [strLtB]
  | a :: as, b :: bs => fun h => by
    by_cases h1 : a < b
    · have h2 : ¬ b < a := lt_asymm h1
      simp [strLtB, h1, h2]
    · by_cases h2 : b < a
      · rw [strLtB] at h
        simp [h1, h2] at h
      · rw [strLtB] at h
        simp [h1, h2] at h
        simp [strLtB, h1, h2, strLtB_asymm h]

theorem strLtB_lin : ∀ (x y z : List Char), strLtB x z = true →
    strLtB x y = true ∨ strLtB y z = true
  | [], _, [] => by simp [strLtB]
  | [], y, _ :: _ => fun _ => by
    cases y with
    | nil => right; simp [strLtB]
    | cons b bs => left; simp [strLtB]
  | _ :: _, _, [] => by simp [strLtB]
  | a :: as, y, c :: cs => fun h => by
    cases y with
    | nil => right; simp [strLtB]
    | cons b bs =>
      rw [strLtB] at h
      by_cases hac : a < c
      · by_cases hab : a < b
        · left; simp [strLtB, hab]
        · by_cases hba : b < a
          · right
            have hbc : b < c := lt_trans hba hac
            simp [strLtB, hbc]
          · have hab' : a = b := le_antisymm (not_lt.mp hba) (not_lt.mp hab)
            right
            rw [← hab']
            simp [strLtB, hac]
      · by_cases hca : c < a
        · simp [hac, hca] at h
        · have hac' : a = c := le_antisymm (not_lt.mp hca) (not_lt.mp hac)
          simp only [if_neg hac, if_neg hca] at h
          by_cases hab : a < b
          · left; simp [strLtB, hab]
          · by_cases hba : b < a
            · right
              rw [← hac']
              simp [strLtB, hba]
            · have hab' : a = b := le_antisymm (not_lt.mp hba) (not_lt.mp hab)
              rcases strLtB_lin as bs cs h with h' | h'
              · left
                rw [← hab']
                simp [strLtB, lt_self_iff_false, h']
              · right
                rw [← hab', ← hac']
                simp [strLtB, lt_self_iff_false, h']

theorem dateDescLe_trans (a b c : Vuln) (h1 : dateDescLe a b) (h2 : dateDescLe b c) :
    dateDescLe a c := by
  simp only [dateDescLe, Bool.not_eq_true'] at *
  by_contra hcon
  simp only [Bool.not_eq_false] at hcon
  rcases strLtB_lin _ b.dateAdded.data _ hcon with h | h
  · rw [h] at h1; exact absurd h1 (by simp)
  · rw [h] at h2; exact absurd h2 (by simp)

theorem dateDescLe_total (a b : Vuln) : dateDescLe a b || dateDescLe b a := by
  simp only [dateDescLe, Bool.or_eq_true, Bool.not_eq_true']
  by_cases h : strLtB a.dateAdded.data b.dateAdded.data = true
  · right; exact strLtB_asymm h
  · left; simpa using h

theorem cvssDescLe_trans (a b c : Vuln) (h1 : cvssDescLe a b) (h2 : cvssDescLe b c) :
    cvssDescLe a c := by
  simp only [cvssDescLe, decide_eq_true_eq] at *
  exact le_trans h2 h1

theorem cvssDescLe_total (a b : Vuln) : cvssDescLe a b || cvssDescLe b a := by
  simp only [cvssDescLe, Bool.or_eq_true, decide_eq_true_eq]
  exact le_total (cvssSortKey b) (cvssSortKey a)


/-- Counterexample for C9: a date-sort query orders the two records newest
first, but the enrichment step re-sorts them by CVSS score
(`api_enhanced.py:640`), so the list handed to pagination is in ascending
date order — enrichment does not preserve the date order. -/
theorem c9_counterexample :
    applySortBy (some "date") "kevs sorted by date" [c9r1, c9r2] = [c9r1, c9r2] ∧
      (enrich_vulnerability_data [c9r1, c9r2] [] []).map (fun v => v.dateAdded) =
        ["2024-01-01", "2024-01-02"] ∧
      ¬ (["2024-01-01", "2024-01-02"] : List String).Pairwise
          (fun a b => !strLtB a.data b.data = true) := by
  refine ⟨?_, ?_, by decide⟩
  · show (if _ then sortByDateDesc [c9r1, c9r2] else _) = _
    rw [if_pos (by decide)]
    unfold sortByDateDesc
    rw [mergeSort_pair]
    rw [if_pos (by decide)]
  · unfold enrich_vulnerability_data
    rw [List.map_cons, List.map_cons, List.map_nil, mergeSort_pair]
    rw [if_neg ?hneg]
    case hneg =>
      simp only [cvssDescLe, decide_eq_true_eq, enrichOne, c9r1, c9r2]
      norm_num [hasRealScore, cvssSortKey]
    simp [enrichOne, c9r1, c9r2]

/-- C9 as amended: the date sort itself is stable-descending on `dateAdded`,
but the final list handed to pagination is the enrichment output, which is
re-sorted stable-descending on the CVSS sort key; given the same inputs the
result is deterministic (a pure function), a permutation of the enriched
post-sort records. -/
theorem c9_sorting (fd : List Vuln) (cm em : List (String × ℚ)) :
    (sortByDateDesc fd).Pairwise (fun a b => dateDescLe a b = true) ∧
    (enrich_vulnerability_data (sortByDateDesc fd) cm em).Pairwise
      (fun a b => cvssSortKey b ≤ cvssSortKey a) ∧
    List.Perm (enrich_vulnerability_data (sortByDateDesc fd) cm em)
      ((sortByDateDesc fd).map (enrichOne cm em)) := by
  refine ⟨?_, ?_, ?_⟩
  · exact List.sorted_mergeSort dateDescLe_trans dateDescLe_total fd
  · have hs := List.sorted_mergeSort cvssDescLe_trans cvssDescLe_total
      ((sortByDateDesc fd).map (enrichOne cm em))
    exact hs.imp fun h => by simpa [cvssDescLe, decide_eq_true_eq] using h
  · simpa [enrich_vulnerability_data] using
      List.mergeSort_perm ((sortByDateDesc fd).map (enrichOne cm em)) cvssDescLe


/-- Counterexample for C8: in the main query pipeline (v2.0 removed the
special handling, `api_enhanced.py:993-995`), a ransomware query filters by
keyword text only: a record flagged `ransomwareAssociated` whose text lacks
the keyword is dropped, whereas the claimed narrowing (or its below-10
relaxation to the full catalog subset) would retain it. -/
theorem c8_counterexample :
    isRansomwareFlagged c8FlaggedRec = true ∧
      query_apply_filters ["ransomware"] none none
        (combine_sources [] [] [c8FlaggedRec]) = [] := by
  decide

/-- C8 as amended: only the CSV export applies the flag-based narrowing.  For
a ransomware query it keeps exactly the records flagged
`knownRansomwareCampaignUse ∈ {known, yes, true, y}` when at least 10 such
records survive, and otherwise falls back to the full vendor/date-filtered
KEV subset; the main query pipeline's keyword filter never reads the flag
(changing the flag on every record commutes with the filter). -/
theorem c8_ransomware_handling (query vendor date_filter : String)
    (zdi nvd : List Vuln) (kev_data : KevData)
    (h : pyInQ "ransomware" query = true) :
    (((export_csv_prefilter query zdi nvd kev_data vendor date_filter).filter
          (fun v => isRansomwareFlagged v)).length < 10 →
        export_csv_filtered query zdi nvd kev_data vendor date_filter =
          export_kev_subset kev_data vendor date_filter) ∧
    (10 ≤ ((export_csv_prefilter query zdi nvd kev_data vendor date_filter).filter
          (fun v => isRansomwareFlagged v)).length →
        export_csv_filtered query zdi nvd kev_data vendor date_filter =
          (export_csv_prefilter query zdi nvd kev_data vendor date_filter).filter
            (fun v => isRansomwareFlagged v) ∧
        ∀ v ∈ export_csv_filtered query zdi nvd kev_data vendor date_filter,
          isRansomwareFlagged v = true) ∧
    (∀ (s : String) (kws : List String) (data : List Vuln),
      smart_keyword_search
          (data.map fun v => { v with knownRansomwareCampaignUse := s }) kws =
        (smart_keyword_search data kws).map
          fun v => { v with knownRansomwareCampaignUse := s }) := by
  refine ⟨fun hlt => ?_, fun hge => ?_, fun s kws data => ?_⟩
  · simp only [export_csv_filtered]
    rw [h]
    simp only [if_true]
    rw [if_pos hlt]
  · have hnlt : ¬ ((export_csv_prefilter query zdi nvd kev_data vendor date_filter).filter
        (fun v => isRansomwareFlagged v)).length < 10 := Nat.not_lt.mpr hge
    have hres : export_csv_filtered query zdi nvd kev_data vendor date_filter =
        (export_csv_prefilter query zdi nvd kev_data vendor date_filter).filter
          (fun v => isRansomwareFlagged v) := by
      simp only [export_csv_filtered]
      rw [h]
      simp only [if_true]
      rw [if_neg hnlt]
    refine ⟨hres, fun v hv => ?_⟩
    rw [hres] at hv
    exact (List.mem_filter.mp hv).2
  · unfold smart_keyword_search
    split
    · rfl
    · rw [List.filter_map]
      rfl


/-- Witness for C8's amended statement: with 1 < 10 flagged records the CSV
export returns the full KEV subset, and with 10 flagged records it returns
the strict ransomware filter; the flag-invariance conjunct is exercised on a
concrete record list. -/
theorem c8_witness :
    (export_csv_filtered "ransomware" [] [] c8KevData "" "" =
      export_kev_subset c8KevData "" "") ∧
    (export_csv_filtered "ransomware" [] [] c8KevBig "" "" =
      (export_csv_prefilter "ransomware" [] [] c8KevBig "" "").filter
        (fun v => isRansomwareFlagged v)) ∧
    smart_keyword_search
        ([c8FlaggedRec].map fun v => { v with knownRansomwareCampaignUse := "no" })
        ["exchange"] =
      (smart_keyword_search [c8FlaggedRec] ["exchange"]).map
        fun v => { v with knownRansomwareCampaignUse := "no" } :=
  ⟨(c8_ransomware_handling "ransomware" "" "" [] [] c8KevData (by decide)).1 (by decide),
   ((c8_ransomware_handling "ransomware" "" "" [] [] c8KevBig (by decide)).2.1
     (by decide)).1,
   (c8_ransomware_handling "ransomware" "" "" [] [] c8KevData (by decide)).2.2
     "no" ["exchange"] [c8FlaggedRec]⟩
